import Mathlib

/-!
Verification of the adaptive-rag orchestration layer.

Shallow embedding of `src/workflow/state.py`, `src/workflow/graph.py`,
`src/workflow/nodes/{retrieve,generate,web_search}.py` and
`src/workflow/chains/retrieval_grader.py`.  External services (the LLM,
the Tavily search API, the vector retriever) are modelled as function
parameters collected in the `Oracles` structure; the orchestration code
itself is translated faithfully, including Python truthiness on the
graders' string-valued `binary_score` fields (a non-empty Python string
is truthy, so `if score.binary_score:` tests the string against `""`).
-/

set_option autoImplicit false

namespace AdaptiveRag

/-- An evidence unit (`langchain.schema.Document`): only `page_content`
is used by this repository. -/
structure Document where
  page_content : String
  deriving DecidableEq

/-- One external web-search result record; the code reads its `content`
field (`tavily_result["content"]`). -/
structure SearchResult where
  content : String
  deriving DecidableEq

/-- `GraphState` from `src/workflow/state.py`: question, generation,
web-search-needed flag, evidence documents.  Keys that are absent at
run time (the user only supplies `question`) are modelled by their
defaults: empty string, `false`, empty list. -/
structure GraphState where
  question : String
  generation : String
  web_search : Bool
  documents : List Document
  deriving DecidableEq

/-- The partial dict a node returns (`Dict[str, Any]`); `none` means the
key is absent from the returned update. -/
structure NodeUpdate where
  question : Option String := none
  generation : Option String := none
  web_search : Option Bool := none
  documents : Option (List Document) := none
  deriving DecidableEq

/-- LangGraph merge semantics: keys present in the update overwrite the
state, absent keys keep their previous value. -/
def applyUpdate (st : GraphState) (u : NodeUpdate) : GraphState where
  question := u.question.getD st.question
  generation := u.generation.getD st.generation
  web_search := u.web_search.getD st.web_search
  documents := u.documents.getD st.documents

/-- `GradeDocuments` from `src/workflow/chains/retrieval_grader.py`:
a single string field holding a binary score, described as
relevant to the question, yes or no. -/
structure GradeDocuments where
  binary_score : String
  deriving DecidableEq

/-- Modelled from the spec: the hallucination grader chain
(`workflow/chains/hallucination_grader.py` is absent from src/); per
section 6 the graders' schema is a single yes/no string field, and the
repository's tests compare this field against the string value no. -/
structure GradeHallucinations where
  binary_score : String
  deriving DecidableEq

/-- Modelled from the spec: the answer grader chain
(`workflow/chains/answer_grader.py` is absent from src/); per section 6
its schema is a single yes/no string field. -/
structure GradeAnswer where
  binary_score : String
  deriving DecidableEq

/-- Modelled from the spec: the router chain output
(`workflow/chains/router.py` is absent from src/); per section 4.1 its
`datasource` field is one of the labels vectorstore or websearch
(schema-valid responses may carry any string). -/
structure RouteQuery where
  datasource : String
  deriving DecidableEq

/-- Modelled from the spec: node-name constants
(`workflow/consts.py` is absent from src/).  Section 4.9 fixes the
websearch label to the exact string the router emits; the other labels
are distinct opaque strings. -/
def RETRIEVE : String := "retrieve"

/-- Modelled from the spec: see `RETRIEVE`. -/
def GRADE_DOCUMENTS : String := "grade_documents"

/-- Modelled from the spec: see `RETRIEVE`. -/
def GENERATE : String := "generate"

/-- Modelled from the spec: see `RETRIEVE`; the router compares its
`datasource` against this exact string. -/
def WEBSEARCH : String := "websearch"

/-- The external capabilities the pipeline calls, modelled as pure
function parameters. -/
structure Oracles where
  retriever : String → List Document
  tavily : Nat → String → List SearchResult
  generation_chain : List Document → String → String
  retrieval_grader : String → String → GradeDocuments
  hallucination_grader : List Document → String → GradeHallucinations
  answer_grader : String → String → GradeAnswer
  question_router : String → RouteQuery

/-- `retrieve` node (`src/workflow/nodes/retrieve.py`): replaces the
documents with the retriever's results and echoes the question. -/
def retrieve (retriever : String → List Document) (state : GraphState) : NodeUpdate :=
  let question := state.question
  let documents := retriever question
  { documents := some documents, question := some question }

/-- `web_search_tool = TavilySearch(max_results=3)`
(`src/workflow/nodes/web_search.py`, line 10): the search capability
applied with the fixed result cap. -/
def max_results : Nat := 3

/-- The Tavily tool invocation: at most `max_results` results are
requested from the external search capability. -/
def web_search_tool (tavily : Nat → String → List SearchResult) (query : String) :
    List SearchResult :=
  tavily max_results query

/-- `web_search` node (`src/workflow/nodes/web_search.py`): joins the
search results' content fields with newlines into one synthetic
document and appends it (Python `if documents:` is the non-empty
test). -/
def web_search (tavily : Nat → String → List SearchResult) (state : GraphState) :
    NodeUpdate :=
  let question := state.question
  let documents := state.documents
  let tavily_results := web_search_tool tavily question
  let joined_tavily_result :=
    String.intercalate "\n" (tavily_results.map (fun tavily_result => tavily_result.content))
  let web_results : Document := { page_content := joined_tavily_result }
  let documents2 := if documents.isEmpty then [web_results] else documents ++ [web_results]
  { documents := some documents2, question := some question }

/-- `generate` node (`src/workflow/nodes/generate.py`): invokes the
generation chain on the evidence and question. -/
def generate (generation_chain : List Document → String → String) (state : GraphState) :
    NodeUpdate :=
  let question := state.question
  let documents := state.documents
  let generation := generation_chain documents question
  { documents := some documents, question := some question, generation := some generation }

/-- Modelled from the spec: the `grade_documents` node
(`workflow/nodes/grade_documents.py` is absent from src/).  Per section
4.5 it iterates the evidence set, retains only documents the relevance
grader marks yes, and sets the web-search-needed flag when anything was
dropped (the filter-and-flag-on-any-drop policy); the question is
echoed unchanged per section 3. -/
def grade_documents (retrieval_grader : String → String → GradeDocuments)
    (state : GraphState) : NodeUpdate :=
  let question := state.question
  let filtered_docs := state.documents.filter
    (fun d => (retrieval_grader question d.page_content).binary_score = "yes")
  let web_search_flag := state.documents.any
    (fun d => !((retrieval_grader question d.page_content).binary_score = "yes" : Bool))
  { documents := some filtered_docs, web_search := some web_search_flag,
    question := some question }

/-- `decide_to_generate` (`src/workflow/graph.py`, lines 16-18). -/
def decide_to_generate (state : GraphState) : String :=
  if state.web_search then WEBSEARCH else GENERATE

/-- `grade_generation_grounded_in_documents_and_question`
(`src/workflow/graph.py`, lines 20-32).  `if score.binary_score:` on a
string field is Python truthiness, i.e. the test `binary_score ≠ ""`. -/
def grade_generation_grounded_in_documents_and_question
    (hallucination_grader : List Document → String → GradeHallucinations)
    (answer_grader : String → String → GradeAnswer)
    (state : GraphState) : String :=
  let question := state.question
  let documents := state.documents
  let generation := state.generation
  let score := hallucination_grader documents generation
  if score.binary_score ≠ "" then
    let score2 := answer_grader question generation
    if score2.binary_score ≠ "" then "useful" else "not useful"
  else
    "not supported"

/-- `route_question` (`src/workflow/graph.py`, lines 34-37). -/
def route_question (question_router : String → RouteQuery) (state : GraphState) : String :=
  let source := question_router state.question
  if source.datasource = WEBSEARCH then WEBSEARCH else RETRIEVE

/-- The graph's nodes, plus the virtual entry decision and the `END`
terminal. -/
inductive Node where
  | entry
  | retrieveN
  | gradeDocumentsN
  | generateN
  | webSearchN
  | endN
  deriving DecidableEq

/-- Execute one node's function and merge its update
(`workflow.add_node` registrations in `src/workflow/graph.py`). -/
def runNode (o : Oracles) (n : Node) (st : GraphState) : GraphState :=
  match n with
  | Node.entry => st
  | Node.retrieveN => applyUpdate st (retrieve o.retriever st)
  | Node.gradeDocumentsN => applyUpdate st (grade_documents o.retrieval_grader st)
  | Node.generateN => applyUpdate st (generate o.generation_chain st)
  | Node.webSearchN => applyUpdate st (web_search o.tavily st)
  | Node.endN => st

/-- The entry branch table `{WEBSEARCH: WEBSEARCH, RETRIEVE: RETRIEVE}`
of `set_conditional_entry_point`; a key outside the table is a
LangGraph error (`none`). -/
def entryBranch (s : String) : Option Node :=
  if s = WEBSEARCH then some Node.webSearchN
  else if s = RETRIEVE then some Node.retrieveN
  else none

/-- The branch table `{WEBSEARCH: WEBSEARCH, GENERATE: GENERATE}` on the
`GRADE_DOCUMENTS` conditional edge. -/
def gradeBranch (s : String) : Option Node :=
  if s = WEBSEARCH then some Node.webSearchN
  else if s = GENERATE then some Node.generateN
  else none

/-- The branch table on the `GENERATE` conditional edge. -/
def generateBranch (s : String) : Option Node :=
  if s = "not supported" then some Node.generateN
  else if s = "useful" then some Node.endN
  else if s = "not useful" then some Node.webSearchN
  else none

/-- One orchestrator step (`src/workflow/graph.py`, lines 41-63): run
the current node, then follow its (conditional) outgoing edge on the
updated state; `none` at `endN` (terminal) or on a branch-table miss. -/
def step (o : Oracles) : Node × GraphState → Option (Node × GraphState)
  | (Node.entry, st) =>
      (entryBranch (route_question o.question_router st)).map (fun n => (n, st))
  | (Node.retrieveN, st) =>
      some (Node.gradeDocumentsN, runNode o Node.retrieveN st)
  | (Node.gradeDocumentsN, st) =>
      let st2 := runNode o Node.gradeDocumentsN st
      (gradeBranch (decide_to_generate st2)).map (fun n => (n, st2))
  | (Node.generateN, st) =>
      let st2 := runNode o Node.generateN st
      (generateBranch
        (grade_generation_grounded_in_documents_and_question
          o.hallucination_grader o.answer_grader st2)).map (fun n => (n, st2))
  | (Node.webSearchN, st) =>
      some (Node.generateN, runNode o Node.webSearchN st)
  | (Node.endN, _) => none

/-- The state a traversal starts from: the user supplies only the
question. -/
def initialState (q : String) : GraphState :=
  { question := q, generation := "", web_search := false, documents := [] }

/-! ### Helper lemmas -/

/-- The synthetic document `web_search` builds for a question. -/
def webSearchDoc (tavily : Nat → String → List SearchResult) (q : String) : Document :=
  { page_content :=
      String.intercalate "\n"
        ((web_search_tool tavily q).map (fun tavily_result => tavily_result.content)) }

theorem web_search_documents_eq (tavily : Nat → String → List SearchResult)
    (st : GraphState) :
    (applyUpdate st (web_search tavily st)).documents
      = st.documents ++ [webSearchDoc tavily st.question] := by
  cases h : st.documents with
  | nil => simp [applyUpdate, web_search, webSearchDoc, h]
  | cons a l => simp [applyUpdate, web_search, webSearchDoc, h]

theorem grade_documents_documents_eq
    (retrieval_grader : String → String → GradeDocuments) (st : GraphState) :
    (applyUpdate st (grade_documents retrieval_grader st)).documents
      = st.documents.filter
          (fun d => (retrieval_grader st.question d.page_content).binary_score = "yes") := by
  simp [applyUpdate, grade_documents]

theorem grade_documents_flag_eq
    (retrieval_grader : String → String → GradeDocuments) (st : GraphState) :
    (applyUpdate st (grade_documents retrieval_grader st)).web_search
      = st.documents.any
          (fun d => !((retrieval_grader st.question d.page_content).binary_score = "yes" : Bool)) := by
  simp [applyUpdate, grade_documents]

/-- A concrete oracle assignment whose three graders all answer the
string no, used to evaluate the orchestration at such verdicts. -/
def oracleNo : Oracles where
  retriever := fun _ => []
  tavily := fun _ _ => []
  generation_chain := fun _ _ => "answer"
  retrieval_grader := fun _ _ => { binary_score := "no" }
  hallucination_grader := fun _ _ => { binary_score := "no" }
  answer_grader := fun _ _ => { binary_score := "no" }
  question_router := fun _ => { datasource := "vectorstore" }

end AdaptiveRag

namespace AdaptiveRag

/-! ### Claims -/

/-- Claim C5 (confirmed): one invocation of the `web_search` node grows
the evidence set by exactly one document, appended at the end; no prior
document is removed or replaced. -/
theorem web_search_appends_exactly_one (o : Oracles) (st : GraphState) :
    (runNode o Node.webSearchN st).documents.length = st.documents.length + 1 ∧
    ∃ d : Document, (runNode o Node.webSearchN st).documents = st.documents ++ [d] := by
  refine ⟨?_, webSearchDoc o.tavily st.question, ?_⟩
  · show (applyUpdate st (web_search o.tavily st)).documents.length = _
    rw [web_search_documents_eq]
    simp
  · exact web_search_documents_eq o.tavily st

/-- Claim C6 (confirmed): the web-search adapter produces exactly one
synthetic document, appended to the evidence set, whose page content is
the newline-joined concatenation of the content fields of the external
search results, of which at most 3 (`max_results`) are requested per
invocation. -/
theorem web_search_single_joined_document (o : Oracles) (st : GraphState) :
    max_results = 3 ∧
    (runNode o Node.webSearchN st).documents
      = st.documents ++
        [{ page_content :=
            String.intercalate "\n"
              ((o.tavily max_results st.question).map
                (fun tavily_result => tavily_result.content)) }] := by
  exact ⟨rfl, web_search_documents_eq o.tavily st⟩

/-- Claim C8 (confirmed): every node of the graph returns a state
update whose question field equals the input state's question, and the
merged state after any node leaves the question unchanged. -/
theorem question_never_mutated (o : Oracles) (st : GraphState) :
    (retrieve o.retriever st).question = some st.question ∧
    (grade_documents o.retrieval_grader st).question = some st.question ∧
    (generate o.generation_chain st).question = some st.question ∧
    (web_search o.tavily st).question = some st.question ∧
    ∀ n : Node, (runNode o n st).question = st.question := by
  refine ⟨rfl, rfl, rfl, rfl, fun n => ?_⟩
  cases n <;>
    simp [runNode, applyUpdate, retrieve, grade_documents, generate, web_search]

/-- Claim C10 (confirmed): for every router output whose datasource is
not the exact string websearch — vectorstore or any other schema-valid
string — `route_question` returns `RETRIEVE`; there is no error branch
for an unrecognized datasource. -/
theorem route_question_default_retrieve (question_router : String → RouteQuery)
    (st : GraphState)
    (h : (question_router st.question).datasource ≠ WEBSEARCH) :
    route_question question_router st = RETRIEVE := by
  simp [route_question, h]

/-- Witness for `route_question_default_retrieve` at a concrete
malformed-but-schema-valid datasource. -/
theorem route_question_default_retrieve_witness :
    route_question (fun _ => { datasource := "llm" }) (initialState "q") = RETRIEVE :=
  route_question_default_retrieve (fun _ => { datasource := "llm" })
    (initialState "q") (by decide)

/-- Claim C2 (code bug): `grade_generation_grounded_in_documents_and_question`
tests the graders' string verdicts by Python truthiness, and the string
no is truthy; so with the hallucination verdict no the code still
consults the answer grader and returns useful (never not supported),
and with the answer verdict no it still returns useful (never not
useful). -/
theorem grade_generation_truthiness_bug :
    grade_generation_grounded_in_documents_and_question
      (fun _ _ => { binary_score := "no" }) (fun _ _ => { binary_score := "no" })
      { question := "q", generation := "g", web_search := false, documents := [] }
      = "useful" ∧
    grade_generation_grounded_in_documents_and_question
      (fun _ _ => { binary_score := "yes" }) (fun _ _ => { binary_score := "no" })
      { question := "q", generation := "g", web_search := false, documents := [] }
      = "useful" := by
  exact ⟨by decide, by decide⟩

/-- Claim C1 fails as stated: the grade-documents step reduces a
non-empty evidence set — here a one-document set whose document the
relevance grader marks not relevant is cut to the empty list. -/
theorem grade_documents_shrinks_evidence :
    ({ question := "q", generation := "", web_search := false,
       documents := [{ page_content := "d1" }] } : GraphState).documents ≠ [] ∧
    step oracleNo
      (Node.gradeDocumentsN,
        { question := "q", generation := "", web_search := false,
          documents := [{ page_content := "d1" }] })
      = some (Node.webSearchN,
        { question := "q", generation := "", web_search := true, documents := [] }) ∧
    ({ question := "q", generation := "", web_search := true,
       documents := [] } : GraphState).documents.length
      < ({ question := "q", generation := "", web_search := false,
           documents := [{ page_content := "d1" }] } : GraphState).documents.length := by
  exact ⟨by decide, by decide, by decide⟩

/-- Claim C1 (amended): in a traversal (where the retrieve node only
runs on the empty initial evidence set), the only step that can reduce
the evidence set is GRADE_DOCUMENTS, which keeps an order-preserving
subsequence (the documents graded relevant); every other step preserves
the evidence set or extends it by appending, never truncating,
deduplicating or reordering it. -/
theorem evidence_only_reduced_by_grading (o : Oracles) (n npost : Node)
    (st stpost : GraphState)
    (h : step o (n, st) = some (npost, stpost))
    (hretr : n = Node.retrieveN → st.documents = []) :
    (n ≠ Node.gradeDocumentsN → ∃ rest, stpost.documents = st.documents ++ rest) ∧
    (n = Node.gradeDocumentsN → stpost.documents.Sublist st.documents) := by
  cases n with
  | entry =>
      refine ⟨fun _ => ⟨[], ?_⟩, fun hc => nomatch hc⟩
      simp only [step] at h
      rcases Option.map_eq_some'.mp h with ⟨a, _, hb⟩
      rw [Prod.mk.injEq] at hb
      rw [← hb.2]
      simp
  | retrieveN =>
      refine ⟨fun _ => ⟨stpost.documents, ?_⟩, fun hc => nomatch hc⟩
      rw [hretr rfl]
      simp
  | gradeDocumentsN =>
      refine ⟨fun hc => absurd rfl hc, fun _ => ?_⟩
      simp only [step] at h
      rcases Option.map_eq_some'.mp h with ⟨a, _, hb⟩
      rw [Prod.mk.injEq] at hb
      rw [← hb.2]
      show (applyUpdate st (grade_documents o.retrieval_grader st)).documents.Sublist _
      rw [grade_documents_documents_eq]
      exact List.filter_sublist _
  | generateN =>
      refine ⟨fun _ => ⟨[], ?_⟩, fun hc => nomatch hc⟩
      simp only [step] at h
      rcases Option.map_eq_some'.mp h with ⟨a, _, hb⟩
      rw [Prod.mk.injEq] at hb
      rw [← hb.2]
      simp [runNode, applyUpdate, generate]
  | webSearchN =>
      refine ⟨fun _ => ⟨[webSearchDoc o.tavily st.question], ?_⟩, fun hc => nomatch hc⟩
      simp only [step, Option.some.injEq, Prod.mk.injEq] at h
      rw [← h.2]
      exact web_search_documents_eq o.tavily st
  | endN =>
      simp only [step] at h
      exact Option.noConfusion h

/-- Witness for `evidence_only_reduced_by_grading`: a concrete generate
step, whose evidence set is extended by the empty suffix. -/
theorem evidence_only_reduced_by_grading_witness :
    ∃ rest,
      ({ question := "q", generation := "answer", web_search := false,
         documents := [{ page_content := "d" }] } : GraphState).documents
        = ({ question := "q", generation := "", web_search := false,
             documents := [{ page_content := "d" }] } : GraphState).documents ++ rest :=
  (evidence_only_reduced_by_grading oracleNo Node.generateN Node.endN
      { question := "q", generation := "", web_search := false,
        documents := [{ page_content := "d" }] }
      { question := "q", generation := "answer", web_search := false,
        documents := [{ page_content := "d" }] }
      (by decide) (fun hc => nomatch hc)).1 (fun hc => nomatch hc)

/-- Claim C3 (confirmed): the grade-documents step keeps exactly the
documents the relevance grader marks yes (an order-preserving
subsequence of the input evidence), sets the web-search-needed flag to
true exactly when some document was graded not relevant, and the
orchestrator then steps to WEBSEARCH exactly when the flag is set, else
to GENERATE. -/
theorem grade_documents_filter_and_flag (o : Oracles) (st : GraphState) :
    (runNode o Node.gradeDocumentsN st).documents.Sublist st.documents ∧
    (∀ d : Document,
      d ∈ (runNode o Node.gradeDocumentsN st).documents ↔
        d ∈ st.documents ∧
          (o.retrieval_grader st.question d.page_content).binary_score = "yes") ∧
    ((runNode o Node.gradeDocumentsN st).web_search = true ↔
      ∃ d ∈ st.documents,
        (o.retrieval_grader st.question d.page_content).binary_score ≠ "yes") ∧
    (step o (Node.gradeDocumentsN, st)
        = some (Node.webSearchN, runNode o Node.gradeDocumentsN st) ↔
      (runNode o Node.gradeDocumentsN st).web_search = true) ∧
    (step o (Node.gradeDocumentsN, st)
        = some (Node.generateN, runNode o Node.gradeDocumentsN st) ↔
      (runNode o Node.gradeDocumentsN st).web_search = false) := by
  refine ⟨?_, ?_, ?_, ?_, ?_⟩
  · show (applyUpdate st (grade_documents o.retrieval_grader st)).documents.Sublist _
    rw [grade_documents_documents_eq]
    exact List.filter_sublist _
  · intro d
    show d ∈ (applyUpdate st (grade_documents o.retrieval_grader st)).documents ↔ _
    rw [grade_documents_documents_eq]
    simp [List.mem_filter]
  · show (applyUpdate st (grade_documents o.retrieval_grader st)).web_search = true ↔ _
    rw [grade_documents_flag_eq]
    simp [List.any_eq_true]
  · by_cases hw : (runNode o Node.gradeDocumentsN st).web_search <;>
      simp +decide [step, decide_to_generate, gradeBranch, hw, WEBSEARCH, GENERATE]
  · by_cases hw : (runNode o Node.gradeDocumentsN st).web_search <;>
      simp +decide [step, decide_to_generate, gradeBranch, hw, WEBSEARCH, GENERATE]

/-- Claim C4 (confirmed): at graph entry the orchestrator steps to the
web-search node exactly when the router's datasource is the string
websearch, and to the retrieve node otherwise; the retrieve node then
steps unconditionally to grade-documents. -/
theorem entry_routing (o : Oracles) (st st2 : GraphState) :
    (step o (Node.entry, st) = some (Node.webSearchN, st) ↔
      (o.question_router st.question).datasource = WEBSEARCH) ∧
    (step o (Node.entry, st) = some (Node.retrieveN, st) ↔
      ¬(o.question_router st.question).datasource = WEBSEARCH) ∧
    step o (Node.retrieveN, st2)
      = some (Node.gradeDocumentsN, runNode o Node.retrieveN st2) := by
  have hrw : RETRIEVE = WEBSEARCH ↔ False := by decide
  refine ⟨?_, ?_, rfl⟩ <;>
  · by_cases h : (o.question_router st.question).datasource = WEBSEARCH <;>
      simp [step, route_question, entryBranch, h, hrw]

/-- Claim C7 (code bug): even when every grader persistently answers
no, the step from `GENERATE` goes to the terminal `END` node — the
truthiness slip makes the combined grading return useful, so the
claimed unbounded GENERATE self-loop (and the WEBSEARCH cycle) is
unreachable and the traversal terminates. -/
theorem persistent_no_verdicts_reach_end :
    step oracleNo
      (Node.generateN,
        { question := "q", generation := "", web_search := false,
          documents := [{ page_content := "d" }] })
      = some (Node.endN,
        { question := "q", generation := "answer", web_search := false,
          documents := [{ page_content := "d" }] }) ∧
    grade_generation_grounded_in_documents_and_question
      oracleNo.hallucination_grader oracleNo.answer_grader
      { question := "q", generation := "answer", web_search := false,
        documents := [{ page_content := "d" }] }
      = "useful" := by
  exact ⟨by decide, by decide⟩

end AdaptiveRag
